import Mathlib

/-!
Shallow embedding of the two orchestration scripts of the repository,
run_backend_tests.py (the Test Runner) and verify_backend_tests.py (the
Verification Sequence).  External effects are made explicit: the outcome of
each attempted child process, the filesystem seen by the summary reporter,
and the points where a Python exception can be raised are inputs, and each
embedded function returns the values and observable events the source
produces from them.
-/

namespace RunBackendTests

/-- Python exceptions that drive the control flow of run_backend_tests.py:
a KeyboardInterrupt delivered during execution, and the FileNotFoundError
raised by subprocess.run when the executable cannot be started. -/
inductive PyException
| keyboardInterrupt
| fileNotFound
deriving DecidableEq

/-- Outcome of one attempt to start a child process and wait for it: the
child ran and exited with a code, the command could not be launched at all,
or a keyboard interrupt arrived during the wait. -/
inductive ChildOutcome
| exited (code : Nat)
| launchFailure
| interrupted
deriving DecidableEq

/-- BackendTestRunner.run_command (run_backend_tests.py, lines 24-39).
subprocess.run(command, check=True, cwd=self.base_dir) raises
CalledProcessError on a non-zero exit, which the method catches and turns
into the return value False; a zero exit returns True; FileNotFoundError
(executable missing) and KeyboardInterrupt are not caught and propagate out
of the method. -/
def run_command (outcome : ChildOutcome) : Except PyException Bool :=
  match outcome with
  | .exited code => .ok (code == 0)
  | .launchFailure => .error .fileNotFound
  | .interrupted => .error .keyboardInterrupt

/-- Argument vector of run_api_tests (lines 43-49). -/
def apiCommand : List String :=
  ["pytest", "tests/backend/blackbox/test_api_simple.py", "-v",
   "--html=reports/api-tests.html", "--self-contained-html"]

/-- Argument vector of run_database_tests (lines 54-60). -/
def databaseCommand : List String :=
  ["pytest", "tests/backend/blackbox/test_database_simple.py", "-v",
   "--html=reports/database-tests.html", "--self-contained-html"]

/-- Argument vector of run_unit_tests (lines 65-73): coverage is written to
reports/coverage, the html report to reports/unit-tests.html. -/
def unitTestsCommand : List String :=
  ["pytest", "tests/backend/whitebox/test_unit_simple.py", "-v",
   "--cov=tests/backend/whitebox", "--cov-report=html:reports/coverage",
   "--html=reports/unit-tests.html", "--self-contained-html"]

/-- Argument vector of run_integration_tests (lines 78-84). -/
def integrationCommand : List String :=
  ["pytest", "tests/backend/test_integration_simple.py", "-v",
   "--html=reports/integration-tests.html", "--self-contained-html"]

/-- Argument vector of run_all_tests (lines 89-98): coverage is written to
reports/full-coverage. -/
def allTestsCommand : List String :=
  ["pytest", "tests/backend/", "-v", "--cov=tests/backend",
   "--cov-report=html:reports/full-coverage", "--cov-report=term-missing",
   "--html=reports/all-backend-tests.html", "--self-contained-html"]

/-- The first command of run_security_scan (line 104): the static analysis
scan. -/
def banditCommand : List String :=
  ["bandit", "-r", "tests/backend/", "-f", "txt"]

/-- The second command of run_security_scan (line 105): the dependency
vulnerability check. -/
def safetyCommand : List String :=
  ["safety", "check"]

/-- The ordered command list of run_security_scan (lines 103-106), each with
its description. -/
def securityCommands : List (List String × String) :=
  [(banditCommand, "Security Scan"), (safetyCommand, "Dependency Security Check")]

/-- An environment: the child outcome each command would have if launched. -/
def Env := List String → ChildOutcome

/-- One iteration of the loop body of run_security_scan (lines 108-112),
threading the running success flag and the raised-exception state, and
recording the description of each command for which run_command was entered.
The source sets success = False when run_command returns False and keeps
iterating; an exception raised by run_command aborts the loop. -/
def securityStep (env : Env) (acc : Except PyException Bool × List String)
    (cmd : List String × String) : Except PyException Bool × List String :=
  match acc.1 with
  | .error e => (.error e, acc.2)
  | .ok success =>
    match run_command (env cmd.1) with
    | .ok b => (.ok (success && b), acc.2 ++ [cmd.2])
    | .error e => (.error e, acc.2 ++ [cmd.2])

/-- BackendTestRunner.run_security_scan (lines 101-112): runs the two scans
in order, starting from success = True.  The first component is the value
returned (or the exception raised), the second the descriptions of the
scans that were actually invoked. -/
def run_security_scan (env : Env) : Except PyException Bool × List String :=
  securityCommands.foldl (securityStep env) (.ok true, [])

/-- The six mutually exclusive category flags of the argument parser
(lines 151-157). -/
inductive Category
| api
| database
| unit
| integration
| security
| all
deriving DecidableEq

/-- The if/elif dispatch of main (lines 163-174): the selected category
method, each of which delegates to run_command with its fixed argument
vector; security delegates to run_security_scan. -/
def runSelected (cat : Category) (env : Env) : Except PyException Bool :=
  match cat with
  | .api => run_command (env apiCommand)
  | .database => run_command (env databaseCommand)
  | .unit => run_command (env unitTestsCommand)
  | .integration => run_command (env integrationCommand)
  | .security => (run_security_scan env).1
  | .all => run_command (env allTestsCommand)

/-- The static ordered report list of generate_summary (lines 120-126). -/
def reportsList : List (String × String) :=
  [("api-tests.html", "API Tests"),
   ("database-tests.html", "Database Tests"),
   ("unit-tests.html", "Unit Tests"),
   ("integration-tests.html", "Integration Tests"),
   ("all-backend-tests.html", "Complete Test Suite")]

/-- The nested coverage index checked by generate_summary (line 134):
self.reports_dir / "full-coverage" / "index.html". -/
def coveragePath : String := "reports/full-coverage/index.html"

/-- What generate_summary prints: one line per report entry with its
presence status, and optionally the coverage pointer line. -/
structure SummaryOutput where
  entries : List (String × Bool)
  coverageLine : Option String
deriving DecidableEq

/-- BackendTestRunner.generate_summary (lines 114-145) as a function of the
filesystem (existence of each path under the script directory).  The source
only calls Path.exists on each report path and prints; it never creates,
deletes or writes any file, so the filesystem is an input only.  Each of
the five entries is printed with a status given solely by existence of
reports/<filename>; the coverage pointer line is printed exactly when
reports/full-coverage/index.html exists. -/
def generate_summary (fs : String → Bool) : SummaryOutput :=
  { entries := reportsList.map fun r => (r.2, fs ("reports/" ++ r.1)),
    coverageLine := if fs coveragePath then some coveragePath else none }

/-- Observable outcome of one invocation of main (lines 148-181): the
process exit code, whether generate_summary ran before termination, and
whether the process died from an uncaught exception (printing a stack
trace). -/
structure MainOutcome where
  exitCode : Nat
  summaryGenerated : Bool
  stackTrace : Bool
deriving DecidableEq

/-- main (lines 162-181): the try block runs the selected category, then
generate_summary, then sys.exit(0 if success else 1).  The only except
clause catches KeyboardInterrupt, prints a message and calls sys.exit(130);
any other exception (FileNotFoundError from a failed launch) propagates out
of main uncaught, so the summary is skipped and the interpreter exits with
code 1 printing a traceback. -/
def main (cat : Category) (env : Env) : MainOutcome :=
  match runSelected cat env with
  | .ok success => ⟨if success then 0 else 1, true, false⟩
  | .error .keyboardInterrupt => ⟨130, false, false⟩
  | .error .fileNotFound => ⟨1, false, true⟩

/-- Environment in which both security scans launch and exit with the given
codes: the static analysis command gets code c1, every other command c2. -/
def twoScanEnv (c1 c2 : Nat) : Env :=
  fun cmd => if cmd = banditCommand then .exited c1 else .exited c2

/-- Filesystem after a fresh unit-category run: only the unit html report
and the unit coverage output (written under reports/coverage per the
cov-report flag of unitTestsCommand) exist. -/
def unitRunFs : String → Bool :=
  fun p => p == "reports/unit-tests.html" || p == "reports/coverage/index.html"

end RunBackendTests

namespace VerifyBackendTests

/-- Outcome of one verification check function when called by main
(verify_backend_tests.py, lines 262-267): it returned a boolean, or it
raised an exception (caught by the per-check except clause). -/
inductive CheckOutcome
| returns (b : Bool)
| raises
deriving DecidableEq

/-- The fixed ordered check list of main (lines 248-257), by display name. -/
def verificationChecks : List String :=
  ["Python Version", "Required Packages", "Internet Connectivity",
   "Database Functionality", "Test Files", "Python Syntax",
   "Pytest Collection", "Sample Test"]

/-- One iteration of the check loop of main (lines 262-267): the check name
is recorded as executed, and the passed counter is incremented exactly when
the check function returned True; a False return or a raised exception
(caught, an error line is printed) leaves the counter unchanged and the
loop continues. -/
def verifyStep (env : String → CheckOutcome) (acc : List String × Nat)
    (name : String) : List String × Nat :=
  (acc.1 ++ [name],
   if env name = CheckOutcome.returns true then acc.2 + 1 else acc.2)

/-- Aggregate observable outcome of the Verification Sequence: the checks
that were executed in order, the passed count, the printed total, and the
process exit code from sys.exit(0 if success else 1) at lines 284-286,
where main returns True exactly when passed_checks == total_checks. -/
structure VerifySummary where
  executed : List String
  passed : Nat
  total : Nat
  exitCode : Nat
deriving DecidableEq

/-- main of verify_backend_tests.py (lines 243-281) together with the
module-level exit (lines 284-286), as a function of the behaviour of each
check. -/
def verify_main (env : String → CheckOutcome) : VerifySummary :=
  let r := verificationChecks.foldl (verifyStep env) ([], 0)
  { executed := r.1, passed := r.2, total := verificationChecks.length,
    exitCode := if r.2 = verificationChecks.length then 0 else 1 }

/-- External behaviour of one run of check_database_functionality: whether
creating the ephemeral file raises, whether the subsequent
connect/create-table/insert/query/commit/close phase raises, and the row
returned by fetchone when that phase completes. -/
structure DbEnv where
  tempFileCreationFails : Bool
  tableOpsFail : Bool
  queryResult : Option (Nat × String × String)
deriving DecidableEq

/-- Result of check_database_functionality: the boolean it returns, and
whether the ephemeral database file still exists on disk after it returns. -/
structure DbCheckResult where
  passed : Bool
  fileRemains : Bool
deriving DecidableEq

/-- check_database_functionality (verify_backend_tests.py, lines 84-129).
The NamedTemporaryFile is created with delete=False, so the file persists
until the explicit Path(db_path).unlink() at line 118, which sits inside
the try block after the query phase.  If the temp file creation raises, no
file exists and the except clause returns False.  If the table/insert/query
phase raises, the except clause returns False and the unlink is never
reached, so the file remains.  Otherwise the file is unlinked and the check
passes exactly when fetchone returned a row whose second field (index 1) is
the string Test User. -/
def check_database_functionality (env : DbEnv) : DbCheckResult :=
  if env.tempFileCreationFails then ⟨false, false⟩
  else if env.tableOpsFail then ⟨false, true⟩
  else
    match env.queryResult with
    | some row => ⟨row.2.1 == "Test User", false⟩
    | none => ⟨false, false⟩

/-- Outcome of a bounded subprocess.run call in the Verification Sequence:
it completed with a return code, its timeout expired (TimeoutExpired), or
some other exception was raised. -/
inductive SubprocOutcome
| completed (returncode : Nat)
| timeoutExpired
| otherError
deriving DecidableEq

/-- The timeout passed to subprocess.run by run_quick_test (line 196). -/
def quickTestTimeoutSeconds : Nat := 30

/-- The timeout passed to subprocess.run by run_sample_backend_test
(line 224). -/
def sampleTestTimeoutSeconds : Nat := 60

/-- run_quick_test (lines 185-211): returns True exactly when the dry-run
collection completed with return code 0; the TimeoutExpired handler and the
generic exception handler both return False, so nothing propagates. -/
def run_quick_test (outcome : SubprocOutcome) : Bool :=
  match outcome with
  | .completed rc => rc == 0
  | .timeoutExpired => false
  | .otherError => false

/-- run_sample_backend_test (lines 214-240): returns True exactly when the
single live test completed with return code 0; the TimeoutExpired handler
and the generic exception handler both return False. -/
def run_sample_backend_test (outcome : SubprocOutcome) : Bool :=
  match outcome with
  | .completed rc => rc == 0
  | .timeoutExpired => false
  | .otherError => false

/-- check_python_version (lines 18-27): sys.version_info is compatible
exactly when version.major == 3 and version.minor >= 9; micro is ignored. -/
def check_python_version (major minor micro : Nat) : Bool :=
  major == 3 && decide (9 ≤ minor)

/-- Written from the words of the spec, for comparison with
check_python_version: the interpreter version (major, minor) is at or above
the minimum 3.9 in the usual version ordering. -/
def specVersionAtLeastMin (major minor : Nat) : Bool :=
  decide (3 < major) || (major == 3 && decide (9 ≤ minor))

end VerifyBackendTests

namespace RunBackendTests

/-- C6: run_command returns True exactly when the child exits with code 0;
a child that ran and exited non-zero is a normal False result, never a
raised exception; the distinct launch-failure exception is raised exactly
when the command could not be started, and the only other propagating
condition is a keyboard interrupt. -/
theorem C6_run_command_contract (outcome : ChildOutcome) (code : Nat) :
    run_command (.exited code) = .ok (code == 0) ∧
    (run_command (.exited code) = .ok true ↔ code = 0) ∧
    (run_command outcome = .error .fileNotFound ↔ outcome = .launchFailure) ∧
    (run_command outcome = .error .keyboardInterrupt ↔ outcome = .interrupted) := by
  refine ⟨rfl, ?_, ?_, ?_⟩
  · simp [run_command]
  · cases outcome <;> simp [run_command]
  · cases outcome <;> simp [run_command]

/-- C3: in an environment where both security scans launch and exit, the
scan loop invokes both scans in order regardless of the first result, and
run_security_scan returns the conjunction of the two success values; in
particular a failing first scan with a succeeding second yields overall
failure with the second scan still executed. -/
theorem C3_security_scan_and_semantics (c1 c2 : Nat) :
    run_security_scan (twoScanEnv c1 c2) =
      (.ok ((c1 == 0) && (c2 == 0)),
       ["Security Scan", "Dependency Security Check"]) := by
  cases h1 : c1 == 0 <;> cases h2 : c2 == 0 <;>
    simp [run_security_scan, securityCommands, securityStep, twoScanEnv,
          run_command, banditCommand, safetyCommand, h1, h2]

/-- C7: in both bounded subprocess checks of the Verification Sequence, an
expired timeout is handled and yields a failed check (False) rather than a
propagating fault, with the bounds 30 and 60 seconds from the source. -/
theorem C7_timeouts_fail_closed :
    VerifyBackendTests.quickTestTimeoutSeconds = 30 ∧
    VerifyBackendTests.sampleTestTimeoutSeconds = 60 ∧
    VerifyBackendTests.run_quick_test .timeoutExpired = false ∧
    VerifyBackendTests.run_sample_backend_test .timeoutExpired = false := by
  decide

/-- C9: for every filesystem, generate_summary produces exactly the five
static report entries in order, each status given solely by existence of
the report file under the reports directory, and the coverage pointer line
appears exactly when the nested coverage index exists; being a pure
function of the filesystem, it mutates nothing. -/
theorem C9_generate_summary_contract (fs : String → Bool) :
    (generate_summary fs).entries.length = 5 ∧
    (generate_summary fs).entries =
      [("API Tests", fs "reports/api-tests.html"),
       ("Database Tests", fs "reports/database-tests.html"),
       ("Unit Tests", fs "reports/unit-tests.html"),
       ("Integration Tests", fs "reports/integration-tests.html"),
       ("Complete Test Suite", fs "reports/all-backend-tests.html")] ∧
    ((generate_summary fs).coverageLine = some coveragePath ↔
      fs coveragePath = true) := by
  refine ⟨rfl, rfl, ?_⟩
  unfold generate_summary
  cases h : fs coveragePath <;> simp [h]

/-- C10: the unit category directs its coverage output to reports/coverage,
while the summary checks only reports/full-coverage/index.html; hence on
the filesystem left by a fresh unit run (unit report and unit coverage
index present) the summary prints no coverage line even though coverage
exists, while the unit report entry is marked present. -/
theorem C10_unit_coverage_invisible :
    unitTestsCommand.contains "--cov-report=html:reports/coverage" = true ∧
    coveragePath = "reports/full-coverage/index.html" ∧
    unitRunFs "reports/coverage/index.html" = true ∧
    (generate_summary unitRunFs).coverageLine = none ∧
    (generate_summary unitRunFs).entries =
      [("API Tests", false), ("Database Tests", false), ("Unit Tests", true),
       ("Integration Tests", false), ("Complete Test Suite", false)] := by
  refine ⟨by decide, rfl, by decide, ?_, ?_⟩ <;> decide

end RunBackendTests

namespace RunBackendTests

/-- C4: the exit code of main mirrors the selected run: 0 exactly on
success, 1 on a failed run (with the summary generated in both cases), and
a keyboard interrupt during execution is caught and yields exit code 130
with no stack trace. -/
theorem C4_exit_codes (cat : Category) (env : Env) :
    (runSelected cat env = .ok true → main cat env = ⟨0, true, false⟩) ∧
    (runSelected cat env = .ok false → main cat env = ⟨1, true, false⟩) ∧
    (runSelected cat env = .error .keyboardInterrupt →
      main cat env = ⟨130, false, false⟩) := by
  refine ⟨?_, ?_, ?_⟩ <;> intro h <;> simp [main, h]

/-- C4 witness: concrete runs hitting all three exit codes. -/
theorem C4_exit_codes_witness :
    main .api (fun _ => .exited 0) = ⟨0, true, false⟩ ∧
    main .api (fun _ => .exited 2) = ⟨1, true, false⟩ ∧
    main .api (fun _ => .interrupted) = ⟨130, false, false⟩ :=
  ⟨(C4_exit_codes .api (fun _ => .exited 0)).1 rfl,
   (C4_exit_codes .api (fun _ => .exited 2)).2.1 rfl,
   (C4_exit_codes .api (fun _ => .interrupted)).2.2 rfl⟩

/-- C2 counterexample: when the api command cannot be launched at all, the
FileNotFoundError propagates out of run_command and past the try block of
main (which catches only KeyboardInterrupt), so generate_summary is
skipped, refuting the claim that the summary is never skipped in that
case. -/
theorem C2_counterexample :
    runSelected .api (fun _ => .launchFailure) = .error .fileNotFound ∧
    (main .api (fun _ => .launchFailure)).summaryGenerated = false :=
  ⟨rfl, rfl⟩

/-- C2 amended: generate_summary is invoked before termination whenever the
selected run completes with a boolean result (underlying success or a child
that exited non-zero); when the command cannot be launched at all, the
exception propagates uncaught and the summary is skipped. -/
theorem C2_summary_on_completion (cat : Category) (env : Env) :
    (∀ b : Bool, runSelected cat env = .ok b →
      (main cat env).summaryGenerated = true) ∧
    (runSelected cat env = .error .fileNotFound →
      (main cat env).summaryGenerated = false ∧
      (main cat env).stackTrace = true) := by
  constructor
  · intro b h
    simp [main, h]
  · intro h
    simp [main, h]

/-- C2 witness: a child failure still reaches the summary, a launch failure
does not. -/
theorem C2_summary_on_completion_witness :
    (main .api (fun _ => .exited 1)).summaryGenerated = true ∧
    (main .api (fun _ => .launchFailure)).summaryGenerated = false :=
  ⟨(C2_summary_on_completion .api (fun _ => .exited 1)).1 false rfl,
   ((C2_summary_on_completion .api (fun _ => .launchFailure)).2 rfl).1⟩

end RunBackendTests

namespace VerifyBackendTests

/-- Auxiliary: the check loop of main appends every check name to the
executed trace, whatever each check does, and adds to the counter exactly
the number of checks that returned True. -/
theorem verifyFold_trace (env : String → CheckOutcome) (l : List String)
    (t : List String) (n : Nat) :
    l.foldl (verifyStep env) (t, n) =
      (t ++ l,
       n + l.countP (fun name => decide (env name = CheckOutcome.returns true))) := by
  induction l generalizing t n with
  | nil => simp
  | cons x xs ih =>
    by_cases h : env x = CheckOutcome.returns true <;>
      simp [List.foldl, verifyStep, h, ih, List.countP_cons] <;> omega

/-- C5: every run of the Verification Sequence executes all eight checks in
their fixed order regardless of individual failures or raised exceptions,
reports passed out of a total of 8, and exits with code 0 exactly when all
eight checks returned True (otherwise 1). -/
theorem C5_verification_sequence (env : String → CheckOutcome) :
    (verify_main env).executed = verificationChecks ∧
    (verify_main env).total = 8 ∧
    (verify_main env).passed =
      verificationChecks.countP
        (fun name => decide (env name = CheckOutcome.returns true)) ∧
    ((verify_main env).exitCode = 0 ↔
      ∀ name ∈ verificationChecks, env name = CheckOutcome.returns true) := by
  have h := verifyFold_trace env verificationChecks [] 0
  simp only [verify_main, h, List.nil_append, Nat.zero_add]
  refine ⟨by trivial, by trivial, by trivial, ?_⟩
  have key :
      verificationChecks.countP
          (fun name => decide (env name = CheckOutcome.returns true)) =
        verificationChecks.length ↔
      ∀ name ∈ verificationChecks, env name = CheckOutcome.returns true := by
    rw [List.countP_eq_length]
    simp
  constructor
  · intro h0
    rw [← key]
    by_contra hc
    rw [if_neg hc] at h0
    exact one_ne_zero h0
  · intro hall
    rw [if_pos (key.mpr hall)]

end VerifyBackendTests

namespace VerifyBackendTests

/-- C1 counterexample: in an execution where the temp file is created and
an exception is then raised during the table-create/insert/query phase,
check_database_functionality reports failed, but the ephemeral database
file still exists after the check returns: the unlink call sits after the
query phase inside the try block, so the exception path skips it. -/
theorem C1_counterexample :
    check_database_functionality ⟨false, true, none⟩ = ⟨false, true⟩ := by
  decide

/-- C1 amended: the ephemeral file is gone after the check returns on every
path on which the table-create/insert/query phase completes without an
exception (passed, wrong row, or no row), and trivially when the file was
never created; but when that phase raises, the check returns failed and the
file remains on disk. -/
theorem C1_cleanup_paths (env : DbEnv) :
    (env.tableOpsFail = false →
      (check_database_functionality env).fileRemains = false) ∧
    (env.tempFileCreationFails = true →
      (check_database_functionality env).fileRemains = false) ∧
    (env.tempFileCreationFails = false → env.tableOpsFail = true →
      check_database_functionality env = ⟨false, true⟩) := by
  obtain ⟨c, q, r⟩ := env
  refine ⟨?_, ?_, ?_⟩
  · intro h
    subst h
    cases c <;> [skip; rfl]
    cases r with
    | none => rfl
    | some row => rfl
  · intro h
    subst h
    rfl
  · intro h1 h2
    subst h1
    subst h2
    rfl

/-- C1 witness: the three paths at concrete environments. -/
theorem C1_cleanup_paths_witness :
    (check_database_functionality
      ⟨false, false, some (1, "Test User", "test@example.com")⟩).fileRemains
        = false ∧
    (check_database_functionality ⟨true, false, none⟩).fileRemains = false ∧
    check_database_functionality ⟨false, true, none⟩ = ⟨false, true⟩ :=
  ⟨(C1_cleanup_paths ⟨false, false, some (1, "Test User", "test@example.com")⟩).1 rfl,
   (C1_cleanup_paths ⟨true, false, none⟩).2.1 rfl,
   (C1_cleanup_paths ⟨false, true, none⟩).2.2 rfl rfl⟩

/-- C8 counterexample: interpreter version 4.0.0 is at or above the minimum
3.9 in the version ordering, yet check_python_version rejects it, because
the source requires major to equal 3 exactly. -/
theorem C8_counterexample :
    specVersionAtLeastMin 4 0 = true ∧ check_python_version 4 0 0 = false := by
  decide

/-- C8 amended: check_python_version passes exactly when major equals 3 and
minor is at least 9: every version below the 3.9 minimum is still rejected,
but versions with major above 3 are rejected too, despite exceeding the
minimum. -/
theorem C8_version_check (major minor micro : Nat) :
    (check_python_version major minor micro = true ↔ major = 3 ∧ 9 ≤ minor) ∧
    (specVersionAtLeastMin major minor = false →
      check_python_version major minor micro = false) := by
  constructor
  · simp [check_python_version]
  · intro h
    simp only [specVersionAtLeastMin, Bool.or_eq_false_iff] at h
    simpa [check_python_version] using h.2

/-- C8 witness: version 2.7.0 is below the minimum and is rejected. -/
theorem C8_version_check_witness :
    specVersionAtLeastMin 2 7 = false ∧ check_python_version 2 7 0 = false :=
  ⟨by decide, (C8_version_check 2 7 0).2 (by decide)⟩

end VerifyBackendTests
